import Mathlib

/-!
Verification of the medical-ai-agent repository's retrieval and
conversation-memory components, as a shallow embedding in Lean.

The embedding covers:
* `src/rag/hybrid_retriever.py` — `HybridRetriever.reciprocal_rank_fusion`
  and `HybridRetriever.search`;
* `src/rag/bm25_retriever.py` — `BM25Retriever.index_documents` and
  `BM25Retriever.search` (together with the relevant behaviour of the
  external `rank_bm25.BM25Okapi` constructor that `index_documents` calls);
* `src/utils/conversation_memory.py` — `ConversationMemory` and its
  operations.

Conventions of the embedding:
* Python `dict`s with string keys are insertion-ordered association lists;
  assignment `d[k] = v` replaces the value in place when the key exists and
  appends at the end otherwise, exactly as CPython dicts behave.
* Python floats are modelled as exact rationals (`ℚ`).  Every numeric fact
  proved below (the RRF score sums and their comparisons) also holds for
  IEEE doubles: the only tie relied upon is `1/61 + 1/62 = 1/62 + 1/61`,
  which holds for floats because float addition is commutative.
* `datetime.now()` is nondeterministic, so every operation that stamps a
  time takes the current time as an explicit `now : String` argument.
* Fallible code returns `Except String`; the string names the Python
  exception.
-/

namespace MedAgent

/-- A Python `dict` with string keys and string values, as the retriever
code manipulates documents: an insertion-ordered association list. -/
def PyDict : Type := List (String × String)

instance : DecidableEq PyDict := by
  unfold PyDict
  infer_instance

namespace AList

/-- Python `d.get(k)` / `k in d`: first value stored under key `k`. -/
def get? {β : Type} : List (String × β) → String → Option β
  | [], _ => none
  | p :: ps, k => if p.1 = k then some p.2 else get? ps k

/-- Python `d[k] = v`: replace in place when the key exists, append at the
end otherwise (CPython dict insertion-order semantics). -/
def set {β : Type} : List (String × β) → String → β → List (String × β)
  | [], k, v => [(k, v)]
  | p :: ps, k, v => if p.1 = k then (k, v) :: ps else p :: set ps k v

end AList

/-- Python `str(d)` for a string-to-string dict, e.g. `{'a': 'b'}`. -/
def pyQuote : String := String.singleton (Char.ofNat 39)

/-- Rendering of one `key: value` pair inside `str(d)`. -/
def pyStrPair (p : String × String) : String :=
  pyQuote ++ p.1 ++ pyQuote ++ ": " ++ pyQuote ++ p.2 ++ pyQuote

/-- Python `str(d)` of a dict: `\x7b'k1': 'v1', 'k2': 'v2'\x7d`. -/
def pyStr (d : PyDict) : String :=
  "\x7b" ++ String.intercalate ", " (d.map pyStrPair) ++ "\x7d"

/-- One BM25 search result, the shape produced by `BM25Retriever.search`:
`{"document": ..., "score": ..., "rank": ...}`. -/
structure BMResult where
  document : PyDict
  score : ℚ
  rank : Nat
deriving DecidableEq

/-- One vector-store search result: a qdrant `ScoredPoint` carrying the
numeric point id assigned by `MedicalVectorStore.add_documents`
(`id=i` from `enumerate`), the document payload, and a similarity score. -/
structure VecResult where
  id : Nat
  payload : PyDict
  score : ℚ
deriving DecidableEq

/-- One fused result produced by `reciprocal_rank_fusion`:
`{"document": ..., "score": ..., "rank": ...}`. -/
structure FusedResult where
  document : PyDict
  score : ℚ
  rank : Nat
deriving DecidableEq

/-- Key under which a BM25 result is scored in the fusion step:
`result["document"].get("chunk_id", str(result["document"]))`. -/
def bmDocKey (d : PyDict) : String :=
  (AList.get? d "chunk_id").getD (pyStr d)

/-- Key under which a vector result is scored in the fusion step:
`result.payload.get("chunk_id", str(result.id))`. -/
def vecResultKey (r : VecResult) : String :=
  (AList.get? r.payload "chunk_id").getD (toString r.id)

/-- Modelled from the spec: the reconciliation policy the spec states for
results of both source lists — "key by the document's chunk identifier
when present, falling back to a string form of the raw record otherwise". -/
def specRecordKey (d : PyDict) : String :=
  (AList.get? d "chunk_id").getD (pyStr d)

/-- One pass of RRF score accumulation over a result list
(`for rank, result in enumerate(results, 1): scores[key] =
scores.get(key, 0) + 1 / (k + rank)`), generic in how a result yields
its key. -/
def rrfFold {α : Type} (key : α → String) (k : ℚ)
    (scores : List (String × ℚ)) (results : List α) : List (String × ℚ) :=
  (results.enumFrom 1).foldl
    (fun s p =>
      AList.set s (key p.2) ((AList.get? s (key p.2)).getD 0 + 1 / (k + p.1)))
    scores

/-- Stable insertion into a list sorted by descending score: the new
element is placed before the first strictly smaller score, hence after all
earlier elements of equal score. -/
def insertDescBy {α : Type} (score : α → ℚ) (x : α) : List α → List α
  | [] => [x]
  | y :: ys => if score y < score x then x :: y :: ys else y :: insertDescBy score x ys

/-- Stable sort by descending score.  Python's `sorted(..., reverse=True)`
is stable and does not reverse ties, so equal-score elements keep their
first-seen order; stable insertion sort produces the identical list. -/
def sortDescBy {α : Type} (score : α → ℚ) (l : List α) : List α :=
  l.foldl (fun acc x => insertDescBy score x acc) []

/-- The result-assembly loop closing `reciprocal_rank_fusion`:
`for doc_id, score in sorted_docs: if doc_id in all_docs:
results.append({..., "rank": len(results) + 1})`. -/
def assembleResults (all_docs : List (String × PyDict))
    (sorted_docs : List (String × ℚ)) : List FusedResult :=
  sorted_docs.foldl
    (fun res p =>
      match AList.get? all_docs p.1 with
      | some doc => res ++ [⟨doc, p.2, res.length + 1⟩]
      | none => res)
    []

/-- `HybridRetriever.reciprocal_rank_fusion(bm25_results, vector_results, k)`:
accumulate `1/(k+rank)` per list into an insertion-ordered score dict, sort
descending by combined score, rebuild the `doc_id -> document` map (vector
payloads overwrite BM25 documents on shared keys), and emit the ten best
keys that the map contains, re-ranked `1..`. -/
def reciprocal_rank_fusion (bm25_results : List BMResult)
    (vector_results : List VecResult) (k : ℚ) : List FusedResult :=
  let scores1 := rrfFold (fun r => bmDocKey r.document) k [] bm25_results
  let scores2 := rrfFold vecResultKey k scores1 vector_results
  let sorted_docs := sortDescBy (fun p => p.2) scores2
  let docs1 := bm25_results.foldl
    (fun d r => AList.set d (bmDocKey r.document) r.document) []
  let all_docs := vector_results.foldl
    (fun d r => AList.set d (vecResultKey r) r.payload) docs1
  assembleResults all_docs (sorted_docs.take 10)

/-- `HybridRetriever.search(query, top_k)`: run both sub-searches with a
cutoff of 10, fuse with RRF at the default constant `k = 60`, and return
the first `top_k` fused results.  The two sub-search outputs are inputs of
the model: `self.bm25.search(query, top_k=10)` and
`self.vector_store.search(embed(query), limit=10)` are the calls that
produce them, and the query influences the result only through them. -/
def hybridSearch (bm25_results : List BMResult)
    (vector_results : List VecResult) (top_k : Nat) : List FusedResult :=
  (reciprocal_rank_fusion bm25_results vector_results 60).take top_k

/-- Python `text.lower().split()`: case-fold, split on runs of whitespace,
no empty tokens. -/
def pyTokenize (s : String) : List String :=
  (s.toLower.split Char.isWhitespace).filter (fun t => t ≠ "")

/-- The external `rank_bm25.BM25Okapi` index object as far as the
repository observes it.  The per-term idf table (which `BM25.__init__`
computes with `math.log`) is not modelled term-by-term: no claim depends
on score values, so the scoring function is carried as an abstract field
recording only that a query yields one score per corpus document. -/
structure BM25Okapi where
  corpus_size : Nat
  doc_len : List Nat
  avgdl : ℚ
  get_scores : List String → List ℚ

/-- Construction of `rank_bm25.BM25Okapi(corpus)`.  `BM25._initialize`
ends with `self.avgdl = num_doc / self.corpus_size`, which raises
`ZeroDivisionError` when the corpus is empty; `BM25Okapi._calc_idf` ends
with `self.average_idf = idf_sum / len(self.idf)`, which raises
`ZeroDivisionError` when the vocabulary is empty (every document
token-free).  Both are modelled; the score values themselves are not (see
`BM25Okapi`). -/
def BM25Okapi.init (corpus : List (List String)) : Except String BM25Okapi :=
  if corpus.length = 0 then
    Except.error "ZeroDivisionError"
  else if corpus.flatten = [] then
    Except.error "ZeroDivisionError"
  else
    Except.ok
      ⟨corpus.length, corpus.map List.length,
        (((corpus.map List.length).sum : ℚ)) / (corpus.length : ℚ),
        fun _ => List.replicate corpus.length 0⟩

/-- State of `BM25Retriever`: `self.bm25 = None` and `self.documents = []`
until an index has been built. -/
structure BM25Retriever where
  bm25 : Option BM25Okapi
  documents : List PyDict

/-- A fresh `BM25Retriever()`. -/
def BM25Retriever.new : BM25Retriever := ⟨none, []⟩

/-- Tokenisation pass of `index_documents`:
`[doc["text"].lower().split() for doc in documents]`; a document without a
`"text"` key raises `KeyError`. -/
def tokenizeDocs (documents : List PyDict) : Except String (List (List String)) :=
  documents.mapM fun d =>
    match AList.get? d "text" with
    | some t => Except.ok (pyTokenize t)
    | none => Except.error "KeyError"

/-- `BM25Retriever.index_documents(documents)`.  `self.documents =
documents` executes first; the `BM25Okapi` construction that follows can
raise, in which case `self.bm25` keeps its previous value (still `None`
on a fresh retriever).  The second component reports success or the
uncaught Python exception. -/
def BM25Retriever.index_documents (r : BM25Retriever) (documents : List PyDict) :
    BM25Retriever × Except String Unit :=
  match tokenizeDocs documents with
  | Except.error e => (⟨r.bm25, documents⟩, Except.error e)
  | Except.ok tokenized =>
    match BM25Okapi.init tokenized with
    | Except.error e => (⟨r.bm25, documents⟩, Except.error e)
    | Except.ok idx => (⟨some idx, documents⟩, Except.ok ())

/-- `BM25Retriever.search(query, top_k)`: `if not self.bm25: return []`;
otherwise score the tokenized query, sort the document indices by
descending score (Python's stable sort), cut to `top_k` and build result
records re-ranked `1..`. -/
def BM25Retriever.search (r : BM25Retriever) (query : String) (top_k : Nat) :
    List BMResult :=
  match r.bm25 with
  | none => []
  | some idx =>
    let scores := idx.get_scores (pyTokenize query)
    let top_indices :=
      (sortDescBy (fun i => scores.getD i 0) (List.range scores.length)).take top_k
    top_indices.foldl
      (fun res i =>
        res ++ [⟨r.documents.getD i [], scores.getD i 0, res.length + 1⟩])
      []

/-- One diagnosis record appended to `diagnoses_received`:
`{'diagnosis': ..., 'confidence': metadata.get('confidence', 0),
'timestamp': ...}`. -/
structure Diagnosis where
  diagnosis : String
  confidence : ℚ
  timestamp : String
deriving DecidableEq

/-- The patient-context aggregate created by
`ConversationMemory.create_session`.  In Python this is a dict with the
five keys below; since `created_at` is always present, the dict is always
truthy. -/
structure PatientContext where
  patient_info : PyDict
  symptoms_mentioned : List String
  diagnoses_received : List Diagnosis
  medications_mentioned : List String
  created_at : String
deriving DecidableEq

/-- A metadata dict passed to `add_message`.  Each field models the
presence (`some`) or absence (`none`) of the corresponding key; only
these keys are ever read. -/
structure Metadata where
  patient_info : Option PyDict
  symptoms : Option (List String)
  diagnosis : Option String
  confidence : Option ℚ
  medications : Option (List String)
deriving DecidableEq

/-- The empty metadata dict `\x7b\x7d`. -/
def Metadata.empty : Metadata := ⟨none, none, none, none, none⟩

/-- Python truthiness of the metadata dict: non-empty, i.e. at least one
key present. -/
def Metadata.isTruthy (m : Metadata) : Bool :=
  m.patient_info.isSome || m.symptoms.isSome || m.diagnosis.isSome ||
    m.confidence.isSome || m.medications.isSome

/-- One entry of a conversation log, as built by `add_message`:
`{'timestamp': ..., 'role': ..., 'content': ..., 'metadata': metadata or \x7b\x7d}`. -/
structure Message where
  timestamp : String
  role : String
  content : String
  metadata : Metadata
deriving DecidableEq

/-- State of a `ConversationMemory` instance.  Both fields are Python
dicts keyed by session id.  A `patient_contexts` value of `none` stands
for an empty dict `\x7b\x7d` stored under the key, which `import_session` can
produce (`self.patient_contexts.get(session_id, \x7b\x7d)` exported from a
missing session); `create_session` always stores a full aggregate. -/
structure ConversationMemory where
  conversations : List (String × List Message)
  patient_contexts : List (String × Option PatientContext)
deriving DecidableEq

/-- A fresh `ConversationMemory()`. -/
def ConversationMemory.new : ConversationMemory := ⟨[], []⟩

/-- The context dict installed by `create_session`. -/
def initContext (now : String) : PatientContext := ⟨[], [], [], [], now⟩

/-- `ConversationMemory.create_session(session_id)`: no-op when the id is
already a key of `self.conversations`; otherwise install an empty log and
a fresh context aggregate.  `datetime.now().isoformat()` is passed in as
`now`. -/
def ConversationMemory.create_session (m : ConversationMemory)
    (session_id : String) (now : String) : ConversationMemory :=
  if (AList.get? m.conversations session_id).isSome then m
  else
    ⟨AList.set m.conversations session_id [],
      AList.set m.patient_contexts session_id (some (initContext now))⟩

/-- Python `dict.update(other)`: assign each key of `other` in order. -/
def PyDict.update (d other : PyDict) : PyDict :=
  other.foldl (fun a p => AList.set a p.1 p.2) d

/-- The deduplicating append loop used for symptoms and medications:
`for x in xs: if x not in acc: acc.append(x)`. -/
def dedupAppend (acc : List String) : List String → List String
  | [] => acc
  | x :: xs => dedupAppend (if x ∈ acc then acc else acc ++ [x]) xs

/-- `ConversationMemory._update_patient_context(session_id, metadata)`
acting on one aggregate: merge `patient_info` key-wise, append unseen
symptoms, append a diagnosis record unconditionally (with
`metadata.get('confidence', 0)` and a fresh timestamp), append unseen
medications. -/
def updateContext (c : PatientContext) (md : Metadata) (now : String) :
    PatientContext :=
  let c1 :=
    match md.patient_info with
    | some pi =>
      PatientContext.mk (PyDict.update c.patient_info pi) c.symptoms_mentioned
        c.diagnoses_received c.medications_mentioned c.created_at
    | none => c
  let c2 :=
    match md.symptoms with
    | some ss =>
      PatientContext.mk c1.patient_info (dedupAppend c1.symptoms_mentioned ss)
        c1.diagnoses_received c1.medications_mentioned c1.created_at
    | none => c1
  let c3 :=
    match md.diagnosis with
    | some d =>
      PatientContext.mk c2.patient_info c2.symptoms_mentioned
        (c2.diagnoses_received ++ [⟨d, md.confidence.getD 0, now⟩])
        c2.medications_mentioned c2.created_at
    | none => c2
  match md.medications with
  | some ms =>
    PatientContext.mk c3.patient_info c3.symptoms_mentioned
      c3.diagnoses_received (dedupAppend c3.medications_mentioned ms)
      c3.created_at
  | none => c3

/-- `ConversationMemory.add_message(session_id, role, content, metadata)`:
ensure the session exists, append the message, and when
`role == 'assistant' and metadata` (dict truthiness) update the patient
context.  If an imported empty context dict sits under the key, Python
would raise `KeyError` inside `_update_patient_context` for some
metadata; that branch leaves the context store unchanged here and is not
exercised by any claim. -/
def ConversationMemory.add_message (m : ConversationMemory)
    (session_id role content : String) (metadata : Option Metadata)
    (now : String) : ConversationMemory :=
  let m1 := m.create_session session_id now
  let message : Message := ⟨now, role, content, metadata.getD Metadata.empty⟩
  let convs := AList.set m1.conversations session_id
    ((AList.get? m1.conversations session_id).getD [] ++ [message])
  let ctxs :=
    match metadata with
    | some md =>
      if role = "assistant" ∧ md.isTruthy = true then
        match AList.get? m1.patient_contexts session_id with
        | some (some c) =>
          AList.set m1.patient_contexts session_id
            (some (updateContext c md now))
        | _ => m1.patient_contexts
      else m1.patient_contexts
    | none => m1.patient_contexts
  ⟨convs, ctxs⟩

/-- `ConversationMemory.get_conversation(session_id, last_n)`: empty list
for an unknown session; `messages[-last_n:]` when `last_n` is a truthy
int (`last_n = 0` is falsy and disables truncation, like `None`). -/
def ConversationMemory.get_conversation (m : ConversationMemory)
    (session_id : String) (last_n : Option Nat) : List Message :=
  match AList.get? m.conversations session_id with
  | none => []
  | some messages =>
    match last_n with
    | some n => if n = 0 then messages else messages.drop (messages.length - n)
    | none => messages

/-- `ConversationMemory.get_patient_context(session_id)`:
`self.patient_contexts.get(session_id, \x7b\x7d)`; `none` models the empty
dict. -/
def ConversationMemory.get_patient_context (m : ConversationMemory)
    (session_id : String) : Option PatientContext :=
  (AList.get? m.patient_contexts session_id).getD none

/-- The lines of `get_context_summary`, one per non-empty category. -/
def summaryParts (c : PatientContext) : List String :=
  (if c.patient_info ≠ [] then
    ["Patient Information: " ++
      String.intercalate ", " (c.patient_info.map (fun p => p.1 ++ ": " ++ p.2))]
   else []) ++
  (if c.symptoms_mentioned ≠ [] then
    ["Symptoms mentioned: " ++ String.intercalate ", " c.symptoms_mentioned]
   else []) ++
  (if c.diagnoses_received ≠ [] then
    ["Previous diagnoses: " ++
      String.intercalate ", " (c.diagnoses_received.map Diagnosis.diagnosis)]
   else []) ++
  (if c.medications_mentioned ≠ [] then
    ["Medications discussed: " ++ String.intercalate ", " c.medications_mentioned]
   else [])

/-- `ConversationMemory.get_context_summary(session_id)`: the
`"No patient context available."` sentinel when the context dict is empty
(unknown session), the joined category lines otherwise, and the
`"No context available."` sentinel when every category is empty. -/
def ConversationMemory.get_context_summary (m : ConversationMemory)
    (session_id : String) : String :=
  match m.get_patient_context session_id with
  | none => "No patient context available."
  | some context =>
    let parts := summaryParts context
    if parts = [] then "No context available."
    else String.intercalate "\n" parts

/-- The dict returned by `ConversationMemory.export_session(session_id)`. -/
structure SessionExport where
  session_id : String
  conversation : List Message
  patient_context : Option PatientContext
deriving DecidableEq

/-- `ConversationMemory.export_session(session_id)`: missing sessions
export an empty log and an empty context dict. -/
def ConversationMemory.export_session (m : ConversationMemory)
    (session_id : String) : SessionExport :=
  ⟨session_id,
    (AList.get? m.conversations session_id).getD [],
    (AList.get? m.patient_contexts session_id).getD none⟩

/-- `ConversationMemory.import_session(data)`: store the exported log and
context verbatim under the exported id. -/
def ConversationMemory.import_session (m : ConversationMemory)
    (data : SessionExport) : ConversationMemory :=
  ⟨AList.set m.conversations data.session_id data.conversation,
    AList.set m.patient_contexts data.session_id data.patient_context⟩

/-- Message log under a session id, `[]` when the session is unknown
(the value `get_conversation` returns without truncation). -/
def logOf (m : ConversationMemory) (sid : String) : List Message :=
  (AList.get? m.conversations sid).getD []

/-- Symptom list of a session's context aggregate, `[]` when absent. -/
def symptomsOf (m : ConversationMemory) (sid : String) : List String :=
  match m.get_patient_context sid with
  | some c => c.symptoms_mentioned
  | none => []

/-- Diagnosis list of a session's context aggregate, `[]` when absent. -/
def diagnosesOf (m : ConversationMemory) (sid : String) : List Diagnosis :=
  match m.get_patient_context sid with
  | some c => c.diagnoses_received
  | none => []

/-- One `add_message` call's inputs (role, content, metadata, and the
current time). -/
structure Turn where
  role : String
  content : String
  metadata : Option Metadata
  now : String

/-- The message record an `add_message` call appends for a turn. -/
def mkMessage (t : Turn) : Message :=
  ⟨t.now, t.role, t.content, t.metadata.getD Metadata.empty⟩

/-- Sequential `add_message` calls on one session, one per turn. -/
def addTurns (m : ConversationMemory) (sid : String) : List Turn → ConversationMemory
  | [] => m
  | t :: ts => addTurns (m.add_message sid t.role t.content t.metadata t.now) sid ts

/-- Metadata carrying only a symptom list. -/
def sympMeta (ss : List String) : Metadata := ⟨none, some ss, none, none, none⟩

/-- Metadata carrying only a diagnosis. -/
def diagMeta (d : String) : Metadata := ⟨none, none, some d, none, none⟩

/-- Two assistant messages on session `"s"` whose metadata carry the
symptom lists `s1` and `s2`. -/
def twoSymptomMsgs (s1 s2 : List String) : ConversationMemory :=
  ((ConversationMemory.new.add_message "s" "assistant" "m1"
      (some (sympMeta s1)) "t1").add_message "s" "assistant" "m2"
    (some (sympMeta s2)) "t2")

/-- Two assistant messages on session `"s"` whose metadata carry the
diagnoses `d1` and `d2`. -/
def twoDiagMsgs (d1 d2 : String) : ConversationMemory :=
  ((ConversationMemory.new.add_message "s" "assistant" "m1"
      (some (diagMeta d1)) "t1").add_message "s" "assistant" "m2"
    (some (diagMeta d2)) "t2")

/-- Documents A, B, C, D of the spec's RRF example, each carrying its
chunk identifier. -/
def docA : PyDict := [("chunk_id", "A")]

/-- Document B of the spec's RRF example. -/
def docB : PyDict := [("chunk_id", "B")]

/-- Document C of the spec's RRF example. -/
def docC : PyDict := [("chunk_id", "C")]

/-- Document D of the spec's RRF example. -/
def docD : PyDict := [("chunk_id", "D")]

/-- The lexical (BM25) result list `[A, B, C]` of the spec's RRF example. -/
def bmABC : List BMResult :=
  [⟨docA, 0, 1⟩, ⟨docB, 0, 2⟩, ⟨docC, 0, 3⟩]

/-- The vector result list `[B, A, D]` of the spec's RRF example. -/
def vecBAD : List VecResult :=
  [⟨0, docB, 0⟩, ⟨1, docA, 0⟩, ⟨2, docD, 0⟩]

/-- A BM25 result list holding eleven distinct documents, used to exercise
the fusion truncation. -/
def bmEleven : List BMResult :=
  [⟨[("chunk_id", "E01")], 0, 1⟩, ⟨[("chunk_id", "E02")], 0, 2⟩,
   ⟨[("chunk_id", "E03")], 0, 3⟩, ⟨[("chunk_id", "E04")], 0, 4⟩,
   ⟨[("chunk_id", "E05")], 0, 5⟩, ⟨[("chunk_id", "E06")], 0, 6⟩,
   ⟨[("chunk_id", "E07")], 0, 7⟩, ⟨[("chunk_id", "E08")], 0, 8⟩,
   ⟨[("chunk_id", "E09")], 0, 9⟩, ⟨[("chunk_id", "E10")], 0, 10⟩,
   ⟨[("chunk_id", "E11")], 0, 11⟩]

/-- A concrete user turn for witnesses. -/
def turnA : Turn := ⟨"user", "hello", none, "t1"⟩

/-- A concrete assistant turn for witnesses. -/
def turnB : Turn := ⟨"assistant", "hi there", none, "t2"⟩

end MedAgent

open MedAgent

/-! Helper lemmas shared by the claim theorems. -/

theorem alist_get_set_self {β : Type} (d : List (String × β)) (k : String) (v : β) :
    AList.get? (AList.set d k v) k = some v := by
  induction d with
  | nil => simp [AList.set, AList.get?]
  | cons p ps ih =>
    by_cases h : p.1 = k
    · simp [AList.set, AList.get?, h]
    · simp [AList.set, AList.get?, h, ih]

theorem add_message_conversations (m : ConversationMemory)
    (sid role content : String) (md : Option Metadata) (now : String) :
    (m.add_message sid role content md now).conversations =
      AList.set (m.create_session sid now).conversations sid
        ((AList.get? (m.create_session sid now).conversations sid).getD [] ++
          [⟨now, role, content, md.getD Metadata.empty⟩]) := rfl

theorem logOf_create_session (m : ConversationMemory) (sid now : String) :
    logOf (m.create_session sid now) sid = logOf m sid := by
  unfold ConversationMemory.create_session logOf
  by_cases h : (AList.get? m.conversations sid).isSome
  · simp [h]
  · rw [if_neg h, Option.not_isSome_iff_eq_none.mp h]
    simp [alist_get_set_self]

theorem logOf_add_message (m : ConversationMemory) (sid role content : String)
    (md : Option Metadata) (now : String) :
    logOf (m.add_message sid role content md now) sid =
      logOf m sid ++ [⟨now, role, content, md.getD Metadata.empty⟩] := by
  rw [logOf, add_message_conversations, alist_get_set_self, Option.getD_some,
    ← logOf_create_session m sid now]
  rfl

theorem logOf_addTurns (ts : List Turn) (m : ConversationMemory) (sid : String) :
    logOf (addTurns m sid ts) sid = logOf m sid ++ ts.map mkMessage := by
  induction ts generalizing m with
  | nil => simp [addTurns]
  | cons t ts ih =>
    rw [addTurns, ih, logOf_add_message]
    simp [mkMessage]

theorem get_conversation_none (m : ConversationMemory) (sid : String) :
    m.get_conversation sid none = logOf m sid := by
  cases h : AList.get? m.conversations sid <;>
    simp [ConversationMemory.get_conversation, logOf, h]

theorem get_conversation_lastN (m : ConversationMemory) (sid : String)
    (n : Nat) (hn : n ≠ 0) :
    m.get_conversation sid (some n) =
      (logOf m sid).drop ((logOf m sid).length - n) := by
  cases h : AList.get? m.conversations sid <;>
    simp [ConversationMemory.get_conversation, logOf, h, hn]

/-- Claim C2: the spec asks that indexing an empty document list succeed
and leave the index in a valid empty state.  The embedded code raises
`ZeroDivisionError` instead (rank_bm25's `BM25._initialize` computes
`avgdl = num_doc / self.corpus_size` with `corpus_size = 0`); the state
left behind does satisfy the second half of the contract: `self.bm25`
stays `None`, so every subsequent `search` returns `[]`. -/
theorem bm25_index_empty_raises :
    (BM25Retriever.new.index_documents []).2 = Except.error "ZeroDivisionError" ∧
    (BM25Retriever.new.index_documents []).1.bm25 = none ∧
    ∀ (q : String) (k : Nat),
      (BM25Retriever.new.index_documents []).1.search q k = [] :=
  ⟨rfl, rfl, fun _ _ => rfl⟩

/-- Claim C4: `search(query, top_k)` returns at most `top_k` results, and
when both sub-searches return no results (empty index) it returns the
empty list. -/
theorem hybrid_search_rank_bound (bm : List BMResult) (vec : List VecResult)
    (top_k : Nat) :
    (hybridSearch bm vec top_k).length ≤ top_k ∧
    hybridSearch [] [] top_k = [] := by
  constructor
  · exact List.length_take_le top_k (reciprocal_rank_fusion bm vec 60)
  · show (reciprocal_rank_fusion [] [] 60).take top_k = []
    rw [show reciprocal_rank_fusion [] [] 60 = [] from rfl, List.take_nil]

/-- Claim C7: importing the export of any session id into a fresh memory
instance reproduces the message log and the patient-context aggregate. -/
theorem session_round_trip (m : ConversationMemory) (sid : String) :
    (ConversationMemory.new.import_session (m.export_session sid)).get_conversation
        sid none = m.get_conversation sid none ∧
    (ConversationMemory.new.import_session (m.export_session sid)).get_patient_context
        sid = m.get_patient_context sid := by
  constructor
  · rw [get_conversation_none, get_conversation_none]
    show (AList.get? (AList.set [] sid ((AList.get? m.conversations sid).getD []))
        sid).getD [] = _
    rw [alist_get_set_self, Option.getD_some]
    rfl
  · show (AList.get? (AList.set [] sid
        ((AList.get? m.patient_contexts sid).getD none)) sid).getD none = _
    rw [alist_get_set_self, Option.getD_some]
    rfl

/-- Claim C10: `get_conversation(session_id, 0)` returns the full log:
a zero `last_n` is falsy in Python and disables truncation rather than
selecting the last zero entries. -/
theorem get_conversation_zero_disables_truncation (m : ConversationMemory)
    (sid : String) :
    m.get_conversation sid (some 0) = m.get_conversation sid none := by
  cases h : AList.get? m.conversations sid <;>
    simp [ConversationMemory.get_conversation, h]

/-- Claim C8: N sequential `add_message` calls on one session are returned
by `get_conversation` exactly, in call order; with `last_n = n > 0` the
result is a suffix of that log (the last `min n N` entries, chronological
order preserved). -/
theorem memory_append_order (ts : List Turn) (sid : String) (n : Nat)
    (hn : 0 < n) :
    (addTurns ConversationMemory.new sid ts).get_conversation sid none =
      ts.map mkMessage ∧
    List.IsSuffix
      ((addTurns ConversationMemory.new sid ts).get_conversation sid (some n))
      (ts.map mkMessage) ∧
    ((addTurns ConversationMemory.new sid ts).get_conversation sid (some n)).length =
      min n ts.length := by
  have hlog : logOf (addTurns ConversationMemory.new sid ts) sid =
      ts.map mkMessage := by
    rw [logOf_addTurns]
    rfl
  have h2 : (addTurns ConversationMemory.new sid ts).get_conversation sid (some n) =
      (ts.map mkMessage).drop ((ts.map mkMessage).length - n) := by
    rw [get_conversation_lastN _ _ _ (Nat.pos_iff_ne_zero.mp hn), hlog]
  refine ⟨by rw [get_conversation_none, hlog], ?_, ?_⟩
  · rw [h2]
    exact List.drop_suffix _ _
  · rw [h2]
    simp only [List.length_drop, List.length_map]
    omega

/-- Witness for C8 at two concrete turns and `n = 1`. -/
theorem memory_append_order_witness :
    (addTurns ConversationMemory.new "s" [turnA, turnB]).get_conversation "s" none =
      [turnA, turnB].map mkMessage ∧
    List.IsSuffix
      ((addTurns ConversationMemory.new "s" [turnA, turnB]).get_conversation "s" (some 1))
      ([turnA, turnB].map mkMessage) ∧
    ((addTurns ConversationMemory.new "s" [turnA, turnB]).get_conversation "s" (some 1)).length =
      min 1 [turnA, turnB].length :=
  memory_append_order [turnA, turnB] "s" 1 (by decide)

theorem assemble_foldl_length (all_docs : List (String × PyDict)) :
    ∀ (l : List (String × ℚ)) (acc : List FusedResult),
      (List.foldl
        (fun res p =>
          match AList.get? all_docs p.1 with
          | some doc => res ++ [⟨doc, p.2, res.length + 1⟩]
          | none => res)
        acc l).length ≤ acc.length + l.length := by
  intro l
  induction l with
  | nil => intro acc; simp
  | cons p l ih =>
    intro acc
    rw [List.foldl_cons]
    refine le_trans (ih _) ?_
    cases h : AList.get? all_docs p.1 with
    | none => simp [h]
    | some doc =>
      simp [h]
      omega

theorem assembleResults_length_le (all_docs : List (String × PyDict))
    (sorted_docs : List (String × ℚ)) :
    (assembleResults all_docs sorted_docs).length ≤ sorted_docs.length := by
  simpa [assembleResults] using assemble_foldl_length all_docs sorted_docs []

theorem reciprocal_rank_fusion_length_le (bm : List BMResult)
    (vec : List VecResult) (k : ℚ) :
    (reciprocal_rank_fusion bm vec k).length ≤ 10 := by
  simp only [reciprocal_rank_fusion]
  refine le_trans (assembleResults_length_le _ _) ?_
  exact List.length_take_le 10 _

/-- Claim C9: hybrid search never returns more than 10 results, whatever
`top_k` asks for, because the fusion step truncates to the 10 best fused
candidates; at eleven distinct candidate documents and `top_k = 15`
exactly 10 come back. -/
theorem fusion_truncates_to_ten (bm : List BMResult) (vec : List VecResult)
    (top_k : Nat) :
    (hybridSearch bm vec top_k).length ≤ 10 ∧
    (hybridSearch bmEleven [] 15).length = 10 := by
  constructor
  · have h1 := reciprocal_rank_fusion_length_le bm vec 60
    simp only [hybridSearch, List.length_take]
    omega
  · norm_num +decide [hybridSearch, reciprocal_rank_fusion, assembleResults,
      rrfFold, sortDescBy, insertDescBy, bmDocKey, vecResultKey, AList.set,
      AList.get?, bmEleven, List.enumFrom, List.foldl, List.take]

/-- Claim C1: fusing lexical list [A,B,C] with vector list [B,A,D] at
constant 60 scores A at 1/61 + 1/62, B at 1/62 + 1/61 (equal), C and D at
1/63 each, and returns exactly the order A, B, C, D — both ties broken by
first-seen order, the lexical list coming first. -/
theorem rrf_formula_exactness :
    (reciprocal_rank_fusion bmABC vecBAD 60).map
      (fun r => (AList.get? r.document "chunk_id", r.score)) =
      [(some "A", 1/61 + 1/62), (some "B", 1/62 + 1/61),
       (some "C", 1/63), (some "D", 1/63)] := by
  norm_num +decide [reciprocal_rank_fusion, assembleResults, rrfFold,
    sortDescBy, insertDescBy, bmDocKey, vecResultKey, AList.set, AList.get?,
    bmABC, vecBAD, docA, docB, docC, docD, List.enumFrom, List.foldl,
    List.take]

/-- Claim C3, counterexample: a vector result whose payload lacks a chunk
identifier is keyed by the string form of its numeric id ("7"), not by a
string form of the raw record, so the claimed policy fails on the vector
list; the last conjunct shows the fusion's score dict really carries the
"7" key. -/
theorem fusion_key_fallback_cx :
    vecResultKey ⟨7, [("text", "flu")], 0⟩ ≠ specRecordKey [("text", "flu")] ∧
    vecResultKey ⟨7, [("text", "flu")], 0⟩ = "7" ∧
    rrfFold vecResultKey 60 [] [⟨7, [("text", "flu")], 0⟩] = [("7", 1/61)] := by
  refine ⟨by decide, rfl, ?_⟩
  norm_num +decide [rrfFold, vecResultKey, AList.set, AList.get?,
    List.enumFrom, List.foldl]

/-- Claim C3 as amended: lexical-list results are keyed by the chunk
identifier with fallback to the string form of the raw record (exactly the
spec's policy), while vector-list results fall back to the string form of
the result's numeric id instead. -/
theorem fusion_key_policy (r : BMResult) (v : VecResult) :
    bmDocKey r.document = specRecordKey r.document ∧
    (∀ c, AList.get? v.payload "chunk_id" = some c → vecResultKey v = c) ∧
    (AList.get? v.payload "chunk_id" = none →
      vecResultKey v = toString v.id) := by
  refine ⟨rfl, ?_, ?_⟩
  · intro c hcl
    simp [vecResultKey, hcl]
  · intro hn
    simp [vecResultKey, hn]

/-- Witness for the amended C3 at concrete results with and without a
chunk identifier. -/
theorem fusion_key_policy_witness :
    bmDocKey docA = specRecordKey docA ∧
    vecResultKey ⟨3, docB, 0⟩ = "B" ∧
    vecResultKey ⟨7, [("text", "flu")], 0⟩ = "7" :=
  ⟨(fusion_key_policy ⟨docA, 0, 1⟩ ⟨3, docB, 0⟩).1,
   (fusion_key_policy ⟨docA, 0, 1⟩ ⟨3, docB, 0⟩).2.1 "B" rfl,
   (fusion_key_policy ⟨docA, 0, 1⟩ ⟨7, [("text", "flu")], 0⟩).2.2 rfl⟩

theorem mem_dedupAppend (acc xs : List String) (y : String) :
    y ∈ dedupAppend acc xs ↔ y ∈ acc ∨ y ∈ xs := by
  induction xs generalizing acc with
  | nil => simp [dedupAppend]
  | cons x xs ih =>
    rw [dedupAppend, ih]
    by_cases hx : x ∈ acc
    · simp only [if_pos hx, List.mem_cons]
      constructor
      · rintro (h | h)
        · exact Or.inl h
        · exact Or.inr (Or.inr h)
      · rintro (h | h | h)
        · exact Or.inl h
        · exact Or.inl (by rw [h]; exact hx)
        · exact Or.inr h
    · simp only [if_neg hx, List.mem_append, List.mem_singleton, List.mem_cons]
      tauto

theorem count_dedupAppend_le_one (acc xs : List String) (y : String)
    (h : acc.count y ≤ 1) : (dedupAppend acc xs).count y ≤ 1 := by
  induction xs generalizing acc with
  | nil => simpa [dedupAppend] using h
  | cons x xs ih =>
    rw [dedupAppend]
    apply ih
    by_cases hx : x ∈ acc
    · simpa [hx] using h
    · rw [if_neg hx, List.count_append]
      by_cases hxy : x = y
      · subst hxy
        have h0 : acc.count x = 0 := List.count_eq_zero.mpr hx
        simp [h0]
      · have h1 : List.count y [x] = 0 :=
          List.count_eq_zero.mpr (by simp [Ne.symm hxy])
        rw [h1]
        simpa using h

/-- Claim C5: two assistant messages whose metadata both mention the
symptom "fever" leave exactly one "fever" entry in the session's symptom
list (deduplicated), while two assistant messages carrying diagnoses
append one record each, unconditionally and without deduplication. -/
theorem context_dedup (s1 s2 : List String) (d1 d2 : String)
    (_h1 : "fever" ∈ s1) (h2 : "fever" ∈ s2) :
    (symptomsOf (twoSymptomMsgs s1 s2) "s").count "fever" = 1 ∧
    (diagnosesOf (twoDiagMsgs d1 d2) "s").length = 2 ∧
    diagnosesOf (twoDiagMsgs d1 d2) "s" = [⟨d1, 0, "t1"⟩, ⟨d2, 0, "t2"⟩] := by
  refine ⟨?_, rfl, rfl⟩
  have e1 : symptomsOf (twoSymptomMsgs s1 s2) "s" =
      dedupAppend (dedupAppend [] s1) s2 := rfl
  rw [e1]
  have hle : (dedupAppend (dedupAppend [] s1) s2).count "fever" ≤ 1 :=
    count_dedupAppend_le_one _ _ _ (count_dedupAppend_le_one _ _ _ (by simp))
  have hmem : "fever" ∈ dedupAppend (dedupAppend [] s1) s2 :=
    (mem_dedupAppend _ _ _).mpr (Or.inr h2)
  have hpos : 0 < (dedupAppend (dedupAppend [] s1) s2).count "fever" :=
    List.count_pos_iff.mpr hmem
  omega

/-- Witness for C5 at concrete symptom lists and diagnoses. -/
theorem context_dedup_witness :
    (symptomsOf (twoSymptomMsgs ["fever"] ["fever", "cough"]) "s").count "fever" = 1 ∧
    (diagnosesOf (twoDiagMsgs "influenza" "common cold") "s").length = 2 ∧
    diagnosesOf (twoDiagMsgs "influenza" "common cold") "s" =
      [⟨"influenza", 0, "t1"⟩, ⟨"common cold", 0, "t2"⟩] :=
  context_dedup ["fever"] ["fever", "cough"] "influenza" "common cold"
    (by decide) (by decide)

/-- Claim C6: an absent context aggregate yields the "No patient context
available." sentinel; a present aggregate whose four summarizable
categories are all empty yields the distinct "No context available."
sentinel. -/
theorem context_summary_sentinels (m : ConversationMemory) (sid : String)
    (c : PatientContext) (hc : m.get_patient_context sid = some c)
    (hpi : c.patient_info = []) (hs : c.symptoms_mentioned = [])
    (hd : c.diagnoses_received = []) (hmed : c.medications_mentioned = []) :
    m.get_context_summary sid = "No context available." ∧
    (∀ (m2 : ConversationMemory) (sid2 : String),
      m2.get_patient_context sid2 = none →
      m2.get_context_summary sid2 = "No patient context available.") ∧
    ("No context available." : String) ≠ "No patient context available." := by
  refine ⟨?_, ?_, by decide⟩
  · simp [ConversationMemory.get_context_summary, hc, summaryParts, hpi, hs,
      hd, hmed]
  · intro m2 sid2 h
    simp [ConversationMemory.get_context_summary, h]

/-- Witness for C6 at a freshly created session and, for the other
sentinel, an arbitrary memory with no aggregate under the id. -/
theorem context_summary_sentinels_witness :
    (ConversationMemory.new.create_session "s" "t0").get_context_summary "s" =
      "No context available." ∧
    (∀ (m2 : ConversationMemory) (sid2 : String),
      m2.get_patient_context sid2 = none →
      m2.get_context_summary sid2 = "No patient context available.") ∧
    ("No context available." : String) ≠ "No patient context available." :=
  context_summary_sentinels _ "s" (initContext "t0") rfl rfl rfl rfl rfl
